import Mathlib

/-!
Shallow embedding of `src/index.py`, the single-script Amazon sales report
dashboard: the loader's column-role resolution and startup guard, the four
sidebar filters, the KPI metrics with their Python-truthiness display
formatting, and the groupby/aggregation pipelines behind the category chart
and the city revenue map.

Conventions: a pandas missing value (`NaT`, `NaN`) is `none`; dates are day
numbers (`Nat`); coerced numeric cells are exact rationals (`Rat`).
-/

/-- One row of the loaded record set.  Each field models one of the columns
the script reads; `none` models a missing value in that cell. -/
structure Row where
  date : Option Nat
  category : Option String
  rowStatus : Option String
  fulfilment : Option String
  city : Option String
  amount : Option Rat
  qty : Option Rat
deriving DecidableEq, Repr

/-- The in-memory dataframe: its rows plus which optional columns are present
in the header (the `'Date' in df.columns` style probes of the script).
Filtering rows never adds or removes a column, so the flags are fixed. -/
structure RecordSet where
  rows : List Row
  hasDate : Bool
  hasCategory : Bool
  hasStatus : Bool
  hasFulfilment : Bool
deriving DecidableEq, Repr

/-- The sidebar selections.  `dateRange = none` models an incomplete range
selection (`len(date_range) != 2`); a membership selection of `none` models
the sentinel `'All'` being among the chosen options, which disables that
filter. -/
structure Filters where
  dateRange : Option (Nat × Nat)
  selCats : Option (List String)
  selStats : Option (List String)
  selFul : Option (List String)
deriving DecidableEq, Repr

/-- Line 106: `(df['Date'].dt.date >= start_date) & (df['Date'].dt.date <=
end_date)`.  A missing date (`NaT`) compares false on both sides, so such a
row is dropped whenever the date filter is applied. -/
def datePass (s e : Nat) (r : Row) : Bool :=
  match r.date with
  | some d => decide (s ≤ d) && decide (d ≤ e)
  | none => false

/-- Lines 95-106: the date filter runs only when a `Date` column exists and is
not entirely missing (`not df['Date'].isna().all()`), and only when the
widget returned a two-element range. -/
def dateStage (dr : Option (Nat × Nat)) (df : RecordSet) : RecordSet :=
  if df.hasDate && df.rows.any (fun r => r.date.isSome) then
    match dr with
    | some (s, e) => { df with rows := df.rows.filter (datePass s e) }
    | none => df
  else df

/-- `df[col].isin(sel)`: a missing value is never a member of the selection. -/
def memPass (proj : Row → Option String) (sel : List String) (r : Row) : Bool :=
  match proj r with
  | some v => sel.contains v
  | none => false

/-- Lines 108-112: the category filter runs when a `Category` column exists
and `'All'` is not among the selections. -/
def catStage (sel : Option (List String)) (df : RecordSet) : RecordSet :=
  if df.hasCategory then
    match sel with
    | some cats => { df with rows := df.rows.filter (memPass Row.category cats) }
    | none => df
  else df

/-- Lines 114-118: the order-status filter, same shape as the category one. -/
def statStage (sel : Option (List String)) (df : RecordSet) : RecordSet :=
  if df.hasStatus then
    match sel with
    | some stats => { df with rows := df.rows.filter (memPass Row.rowStatus stats) }
    | none => df
  else df

/-- Lines 120-124: the fulfilment filter, same shape as the category one. -/
def fulStage (sel : Option (List String)) (df : RecordSet) : RecordSet :=
  if df.hasFulfilment then
    match sel with
    | some fuls => { df with rows := df.rows.filter (memPass Row.fulfilment fuls) }
    | none => df
  else df

/-- Lines 92-124: the sidebar applies the four filters in source order:
date range, then category, then status, then fulfilment. -/
def applyFilters (fs : Filters) (df : RecordSet) : RecordSet :=
  fulStage fs.selFul (statStage fs.selStats (catStage fs.selCats (dateStage fs.dateRange df)))

/-- The filter configuration in which no filter is active. -/
def noFilters : Filters := ⟨none, none, none, none⟩

/-- `series.sum()`: pandas skips missing values and returns 0 on an empty or
all-missing column. -/
def sumOpt (proj : Row → Option Rat) (rows : List Row) : Rat :=
  (rows.map (fun r => (proj r).getD 0)).sum

/-- `series.mean()`: pandas divides the sum of the non-missing values by
their count, yielding `NaN` (here `none`) when that count is zero. -/
def meanOpt (proj : Row → Option Rat) (rows : List Row) : Option Rat :=
  let vals := rows.filterMap proj
  if vals.length = 0 then none else some (vals.sum / (vals.length : Rat))

/-- Line 133: `total_orders = len(df)`. -/
def total_orders (df : RecordSet) : Nat := df.rows.length

/-- Line 134: `total_revenue = df[AMOUNT_COL].sum() if AMOUNT_COL else 0`.
`amountCol` records whether an amount column was resolved. -/
def total_revenue (amountCol : Bool) (df : RecordSet) : Rat :=
  if amountCol then sumOpt Row.amount df.rows else 0

/-- Line 135: `avg_order_value = df[AMOUNT_COL].mean() if AMOUNT_COL else 0`.
When the column is resolved the value is a float that may be `NaN` (`none`);
otherwise it is the literal 0. -/
def avg_order_value (amountCol : Bool) (df : RecordSet) : Option Rat :=
  if amountCol then meanOpt Row.amount df.rows else some 0

/-- Line 136: `total_qty = df[QTY_COL].sum() if QTY_COL else 0`. -/
def total_qty (qtyCol : Bool) (df : RecordSet) : Rat :=
  if qtyCol then sumOpt Row.qty df.rows else 0

/-- The rendered text of a KPI cell: the `"-"` placeholder, a formatted
number carrying the exact value the f-string formats, or the text `nan`
that `format(float('nan'), ',.0f')` produces. -/
inductive KpiText where
  | dash
  | num (v : Rat)
  | nanText
deriving DecidableEq, Repr

/-- Line 139: `f"₹ {total_revenue:,.0f}" if total_revenue else "-"`.  A float
is truthy exactly when it is nonzero; a pandas sum is never `NaN`, so the
value here is a plain rational. -/
def kpiRevenue (v : Rat) : KpiText :=
  if v = 0 then .dash else .num v

/-- Line 140: `f"₹ {avg_order_value:,.0f}" if avg_order_value else "-"`.
`none` stands for float `NaN`, which is truthy in Python, so the format
branch is taken and renders the text `nan`. -/
def kpiAvg (v : Option Rat) : KpiText :=
  match v with
  | none => .nanText
  | some a => if a = 0 then .dash else .num a

/-- Line 141: `f"{total_qty:,}" if total_qty else "-"`. -/
def kpiQty (v : Rat) : KpiText :=
  if v = 0 then .dash else .num v

/-- Line 47: the candidate names for the amount column. -/
def possible_amount : List String := ["Amount", "amount", "Sale Amount", "Order Value"]

/-- Line 48: the candidate names for the quantity column. -/
def possible_qty : List String := ["Qty", "Quantity", "qty"]

/-- Lines 50-51: `next((c for c in cands if c in df.columns), None)`, the
first candidate name present in the header. -/
def resolveCol (cands : List String) (header : List String) : Option String :=
  cands.find? (fun c => header.contains c)

/-- Whether the script proceeds past the startup guard, and with which
resolved column roles. -/
inductive RunState where
  | halted
  | running (amountCol : String) (qtyCol : Option String)
deriving DecidableEq, Repr

/-- Lines 82-86: `if df.empty or AMOUNT_COL is None: st.error(...); st.stop()`.
The script halts with an error message when the frame is empty or no amount
column was resolved; otherwise it runs with the resolved roles. -/
def startupGuard (header : List String) (isEmpty : Bool) : RunState :=
  match resolveCol possible_amount header with
  | none => .halted
  | some a => if isEmpty then .halted else .running a (resolveCol possible_qty header)

/-- `df.groupby(key)`: pandas drops rows whose group key is missing; the
group labels are the distinct non-missing key values. -/
def groupKeys (proj : Row → Option String) (rows : List Row) : List String :=
  (rows.filterMap proj).dedup

/-- `df.groupby(key)[AMOUNT_COL].sum()` for one group label: the sum of the
amount cells of the rows carrying that key, missing amounts skipped. -/
def groupRevenue (proj : Row → Option String) (rows : List Row) (k : String) : Rat :=
  sumOpt Row.amount (rows.filter (fun r => decide (proj r = some k)))

/-- Lines 156-158: the per-category revenue table
`df.groupby('Category', as_index=False)[AMOUNT_COL].sum()` (ordering and the
later `head(12)` truncation do not change the group sums). -/
def cat_rev (rows : List Row) : List (String × Rat) :=
  (groupKeys Row.category rows).map (fun k => (k, groupRevenue Row.category rows k))

/-- The sum of the per-category group revenues over all groups, before any
top-N truncation. -/
def cat_rev_sum (rows : List Row) : Rat :=
  ((cat_rev rows).map Prod.snd).sum

/-- Python `str.upper()`, character by character (the city names involved are
plain ASCII). -/
def pyUpper (s : String) : String := ⟨s.data.map Char.toUpper⟩

/-- Python `str.strip()`: drop whitespace from both ends of the text. -/
def pyStrip (s : String) : String :=
  ⟨(((s.data.dropWhile Char.isWhitespace).reverse).dropWhile Char.isWhitespace).reverse⟩

/-- Lines 60-79: the static uppercase city → (latitude, longitude) table. -/
def city_coords : List (String × (Rat × Rat)) :=
  [("BENGALURU", (12.9716, 77.5946)),
   ("BANGALORE", (12.9716, 77.5946)),
   ("MUMBAI", (19.0760, 72.8777)),
   ("NEW DELHI", (28.6139, 77.2090)),
   ("DELHI", (28.6139, 77.2090)),
   ("HYDERABAD", (17.3850, 78.4867)),
   ("AHMEDABAD", (23.0225, 72.5714)),
   ("PUNE", (18.5204, 73.8567)),
   ("CHENNAI", (13.0827, 80.2707)),
   ("KOLKATA", (22.5726, 88.3639)),
   ("JAIPUR", (26.9124, 75.7873)),
   ("LUCKNOW", (26.8467, 80.9462)),
   ("SURAT", (21.1702, 72.8311)),
   ("KANPUR", (26.4499, 80.3319)),
   ("NAGPUR", (21.1458, 79.0882))]

/-- Lines 226-232: `city_upper = str(city).strip().upper()` followed by
`city_coords.get(city_upper)`, first component of the hit. -/
def get_lat (city : String) : Option Rat :=
  (city_coords.lookup (pyUpper (pyStrip city))).map Prod.fst

/-- Lines 234-239: same lookup, second component of the hit. -/
def get_lon (city : String) : Option Rat :=
  (city_coords.lookup (pyUpper (pyStrip city))).map Prod.snd

/-- Lines 211-212: `df.groupby(city_column, as_index=False)[AMOUNT_COL].sum()`
renamed to (City, Revenue) pairs. -/
def city_rev_grouped (rows : List Row) : List (String × Rat) :=
  (groupKeys Row.city rows).map (fun k => (k, groupRevenue Row.city rows k))

/-- Line 213: `city_rev = city_rev[city_rev['Revenue'] > 0]`. -/
def city_rev_pos (rows : List Row) : List (String × Rat) :=
  (city_rev_grouped rows).filter (fun e => decide (0 < e.2))

/-- Lines 219-220: sort by revenue descending and keep the top 150. -/
def city_rev_top (rows : List Row) : List (String × Rat) :=
  ((city_rev_pos rows).mergeSort (fun a b => decide (b.2 ≤ a.2))).take 150

/-- Line 245: the cities drawn on the map are those whose coordinate lookup
succeeded (`dropna(subset=['lat', 'lon'])`). -/
def mapped_cities (rows : List Row) : List (String × Rat) :=
  (city_rev_top rows).filter (fun e => (get_lat e.1).isSome && (get_lon e.1).isSome)

/-- Line 249: when no city matched a coordinate, the fallback table shows
`city_rev.head(30)` of the truncated city-revenue frame. -/
def fallback_table (rows : List Row) : List (String × Rat) :=
  (city_rev_top rows).take 30

/-- The loaded record set of the spec's three-row scenario: amount column
values 100, 200, 300, every other cell missing. -/
def scenarioRows : List Row :=
  [⟨none, none, none, none, none, some 100, none⟩,
   ⟨none, none, none, none, none, some 200, none⟩,
   ⟨none, none, none, none, none, some 300, none⟩]

/-- The three-row scenario as a record set (only the amount column present). -/
def scenarioDf : RecordSet := ⟨scenarioRows, false, false, false, false⟩

/-- Names for the four sidebar filter stages, used to speak about the order
in which they are applied. -/
inductive FilterKind where
  | dateF
  | catF
  | statF
  | fulF
deriving DecidableEq, Repr

/-- Run one named stage with the selections of a filter configuration. -/
def runStage (fs : Filters) : FilterKind → RecordSet → RecordSet
  | .dateF => dateStage fs.dateRange
  | .catF => catStage fs.selCats
  | .statF => statStage fs.selStats
  | .fulF => fulStage fs.selFul

/-- Run the named stages right to left, so that
`runStages fs [.fulF, .statF, .catF, .dateF] df` is the script's own order. -/
def runStages (fs : Filters) (order : List FilterKind) (df : RecordSet) : RecordSet :=
  order.foldr (fun k acc => runStage fs k acc) df

/-- One row dated day 5 with amount 100, and a date filter range of days
10 to 20 that excludes it: the filtered set comes out empty. -/
def emptyScenDf : RecordSet :=
  ⟨[⟨some 5, none, none, none, none, some 100, none⟩], true, false, false, false⟩

/-- The filter selections of the empty-after-date-filter scenario. -/
def emptyScenFilters : Filters := ⟨some (10, 20), none, none, none⟩

/-- A non-empty record set whose single row has amount 0 and quantity 0, so
every computed metric other than the order count equals 0. -/
def zeroDf : RecordSet :=
  ⟨[⟨none, none, none, none, none, some 0, some 0⟩], false, false, false, false⟩

/-- Two rows with categories A and B and amounts 100 and 200: every row has
a category, so the per-category sums partition the revenue. -/
def catWitRows : List Row :=
  [⟨none, some "A", none, none, none, some 100, none⟩,
   ⟨none, some "B", none, none, none, some 200, none⟩]

/-- One row with amount 100 whose category cell is missing: the groupby drops
it, so the per-category sums miss its revenue. -/
def missingCatRows : List Row :=
  [⟨none, none, none, none, none, some 100, none⟩]

/-- One row shipping to MUMBAI with amount 100. -/
def mumbaiRows : List Row :=
  [⟨none, none, none, none, some "MUMBAI", some 100, none⟩]

/-- Two rows: one with a missing date and category A, one dated day 5 with
category B.  The category filter can strip the set of all its dates and
thereby deactivate the date filter. -/
def orderDf : RecordSet :=
  ⟨[⟨none, some "A", none, none, none, some 100, none⟩,
    ⟨some 5, some "B", none, none, none, some 50, none⟩],
   true, true, false, false⟩

/-- Date range [5, 5] together with category selection A (without the
sentinel `'All'`). -/
def orderFilters : Filters := ⟨some (5, 5), some ["A"], none, none⟩

/-- A record set every row of which carries a date, for instantiating the
order-independence statement. -/
def datedDf : RecordSet :=
  ⟨[⟨some 3, some "A", some "S", some "F", none, some 10, none⟩,
    ⟨some 9, some "B", some "S", some "F", none, some 20, none⟩],
   true, true, true, true⟩

/-- An arbitrary filter configuration activating all four stages. -/
def datedFilters : Filters := ⟨some (1, 5), some ["A"], some ["S"], some ["F"]⟩

/-- With no selection active, every sidebar stage returns its input
unchanged. -/
theorem applyFilters_noFilters_eq (df : RecordSet) : applyFilters noFilters df = df := by
  simp [applyFilters, noFilters, dateStage, catStage, statStage, fulStage]

/-- The date stage either leaves the frame unchanged or filters its rows. -/
theorem dateStage_shape (dr : Option (Nat × Nat)) (df : RecordSet) :
    dateStage dr df = df ∨ ∃ p, dateStage dr df = { df with rows := df.rows.filter p } := by
  unfold dateStage
  split
  · cases dr with
    | none => exact Or.inl rfl
    | some se => exact Or.inr ⟨datePass se.1 se.2, rfl⟩
  · exact Or.inl rfl

/-- The category stage either leaves the frame unchanged or filters its
rows. -/
theorem catStage_shape (sel : Option (List String)) (df : RecordSet) :
    catStage sel df = df ∨ ∃ p, catStage sel df = { df with rows := df.rows.filter p } := by
  unfold catStage
  split
  · cases sel with
    | none => exact Or.inl rfl
    | some cats => exact Or.inr ⟨memPass Row.category cats, rfl⟩
  · exact Or.inl rfl

/-- The status stage either leaves the frame unchanged or filters its rows. -/
theorem statStage_shape (sel : Option (List String)) (df : RecordSet) :
    statStage sel df = df ∨ ∃ p, statStage sel df = { df with rows := df.rows.filter p } := by
  unfold statStage
  split
  · cases sel with
    | none => exact Or.inl rfl
    | some stats => exact Or.inr ⟨memPass Row.rowStatus stats, rfl⟩
  · exact Or.inl rfl

/-- The fulfilment stage either leaves the frame unchanged or filters its
rows. -/
theorem fulStage_shape (sel : Option (List String)) (df : RecordSet) :
    fulStage sel df = df ∨ ∃ p, fulStage sel df = { df with rows := df.rows.filter p } := by
  unfold fulStage
  split
  · cases sel with
    | none => exact Or.inl rfl
    | some fuls => exact Or.inr ⟨memPass Row.fulfilment fuls, rfl⟩
  · exact Or.inl rfl

/-- A stage of filter shape only removes rows. -/
theorem shape_rows_sublist {S : RecordSet → RecordSet}
    (h : ∀ df, S df = df ∨ ∃ p, S df = { df with rows := df.rows.filter p })
    (df : RecordSet) : (S df).rows.Sublist df.rows := by
  rcases h df with h1 | ⟨p, h2⟩
  · rw [h1]
  · rw [h2]
    exact List.filter_sublist _

/-- A stage of filter shape never touches the header flags. -/
theorem shape_flags {S : RecordSet → RecordSet}
    (h : ∀ df, S df = df ∨ ∃ p, S df = { df with rows := df.rows.filter p })
    (df : RecordSet) :
    (S df).hasDate = df.hasDate ∧ (S df).hasCategory = df.hasCategory ∧
    (S df).hasStatus = df.hasStatus ∧ (S df).hasFulfilment = df.hasFulfilment := by
  rcases h df with h1 | ⟨p, h2⟩
  · rw [h1]
    exact ⟨rfl, rfl, rfl, rfl⟩
  · rw [h2]
    exact ⟨rfl, rfl, rfl, rfl⟩

/-- The whole sidebar only removes rows from the loaded set. -/
theorem applyFilters_rows_sublist (fs : Filters) (df : RecordSet) :
    (applyFilters fs df).rows.Sublist df.rows :=
  ((shape_rows_sublist (fulStage_shape fs.selFul) _).trans
    ((shape_rows_sublist (statStage_shape fs.selStats) _).trans
      ((shape_rows_sublist (catStage_shape fs.selCats) _).trans
        (shape_rows_sublist (dateStage_shape fs.dateRange) df))))

/-- C1: with no active filter the filter stage returns the loaded set
unchanged, so total orders is the number of loaded rows and total revenue is
the sum of the amount column; on the three-row scenario with amounts
100, 200, 300 this gives 3 orders, revenue 600 and average order value 200. -/
theorem c1_no_filter_metrics :
    (∀ df : RecordSet, applyFilters noFilters df = df ∧
      total_orders (applyFilters noFilters df) = df.rows.length ∧
      total_revenue true (applyFilters noFilters df) = sumOpt Row.amount df.rows) ∧
    total_orders (applyFilters noFilters scenarioDf) = 3 ∧
    total_revenue true (applyFilters noFilters scenarioDf) = 600 ∧
    avg_order_value true (applyFilters noFilters scenarioDf) = some 200 := by
  refine ⟨fun df => ⟨applyFilters_noFilters_eq df, by rw [applyFilters_noFilters_eq df]; rfl,
      by rw [applyFilters_noFilters_eq df, total_revenue]; simp⟩,
    ?_, ?_, ?_⟩
  · rw [applyFilters_noFilters_eq scenarioDf]; rfl
  · rw [applyFilters_noFilters_eq scenarioDf]
    norm_num [total_revenue, sumOpt, scenarioDf, scenarioRows]
  · rw [applyFilters_noFilters_eq scenarioDf]
    norm_num [avg_order_value, meanOpt, scenarioDf, scenarioRows, List.filterMap_cons]

/-- C2 evaluated at the failing input: when the date filter leaves the
filtered set empty, the Total Revenue KPI does display the `"-"` placeholder
(the empty sum is 0, which is falsy), but the Avg Order Value KPI renders the
text `nan`, because the empty mean is float `NaN` and `NaN` is truthy in
Python, so the placeholder branch is skipped. -/
theorem c2_empty_set_display :
    (applyFilters emptyScenFilters emptyScenDf).rows = [] ∧
    kpiRevenue (total_revenue true (applyFilters emptyScenFilters emptyScenDf)) =
      KpiText.dash ∧
    kpiAvg (avg_order_value true (applyFilters emptyScenFilters emptyScenDf)) =
      KpiText.nanText := by
  have hrows : (applyFilters emptyScenFilters emptyScenDf).rows = [] := by
    simp [applyFilters, emptyScenFilters, emptyScenDf, dateStage, catStage, statStage,
      fulStage, datePass, List.filter_cons]
  refine ⟨hrows, ?_, ?_⟩
  · have : total_revenue true (applyFilters emptyScenFilters emptyScenDf) = 0 := by
      rw [total_revenue]
      simp [sumOpt, hrows]
    rw [this]
    simp [kpiRevenue]
  · have : avg_order_value true (applyFilters emptyScenFilters emptyScenDf) = none := by
      rw [avg_order_value]
      simp [meanOpt, hrows]
    rw [this]
    rfl

/-- C5: for every loaded record set and every filter selection, the filtered
rows are a sublist of the loaded rows — each stage only removes rows — and so
the filtered size never exceeds the loaded size. -/
theorem c5_filtered_subset (df : RecordSet) (fs : Filters) :
    (applyFilters fs df).rows.Sublist df.rows ∧
    (applyFilters fs df).rows.length ≤ df.rows.length :=
  ⟨applyFilters_rows_sublist fs df, (applyFilters_rows_sublist fs df).length_le⟩

/-- C8: the coordinate lookup strips surrounding whitespace and uppercases
before the exact table match, so any city text whose stripped upper-casing
equals a table key resolves to that key's coordinate pair. -/
theorem c8_city_lookup (city key : String) (lat lon : Rat)
    (h1 : pyUpper (pyStrip city) = key)
    (h2 : city_coords.lookup key = some (lat, lon)) :
    get_lat city = some lat ∧ get_lon city = some lon := by
  unfold get_lat get_lon
  rw [h1, h2]
  exact ⟨rfl, rfl⟩

/-- Witness for C8 at the spec's example: `"Mumbai "` (trailing space, mixed
case) resolves to the same coordinates as `"MUMBAI"`. -/
theorem c8_city_lookup_w :
    pyUpper (pyStrip "Mumbai ") = "MUMBAI" ∧
    get_lat "Mumbai " = get_lat "MUMBAI" ∧
    get_lon "Mumbai " = get_lon "MUMBAI" ∧
    get_lat "Mumbai " = some 19.0760 ∧
    get_lon "Mumbai " = some 72.8777 := by
  have ha := c8_city_lookup "Mumbai " "MUMBAI" 19.0760 72.8777 (by decide) rfl
  have hb := c8_city_lookup "MUMBAI" "MUMBAI" 19.0760 72.8777 (by decide) rfl
  exact ⟨by decide, ha.1.trans hb.1.symm, ha.2.trans hb.2.symm, ha.1, ha.2⟩

/-- C10: whenever a metric's computed value is 0 — total revenue 0, average
order value 0, or total units 0 — the Python truthiness test in the f-string
conditional renders the `"-"` placeholder instead of the number 0, resolved
columns and non-empty sets notwithstanding. -/
theorem c10_zero_metrics_dash (df : RecordSet) :
    (total_revenue true df = 0 → kpiRevenue (total_revenue true df) = KpiText.dash) ∧
    (avg_order_value true df = some 0 → kpiAvg (avg_order_value true df) = KpiText.dash) ∧
    (total_qty true df = 0 → kpiQty (total_qty true df) = KpiText.dash) := by
  refine ⟨fun h => ?_, fun h => ?_, fun h => ?_⟩ <;> rw [h] <;>
    simp [kpiRevenue, kpiAvg, kpiQty]

/-- Witness for C10 at a non-empty record set with a resolved amount and
quantity column whose only row has amount 0 and quantity 0. -/
theorem c10_zero_metrics_dash_w :
    (total_revenue true zeroDf = 0 ∧ avg_order_value true zeroDf = some 0 ∧
      total_qty true zeroDf = 0 ∧ total_orders zeroDf = 1) ∧
    kpiRevenue (total_revenue true zeroDf) = KpiText.dash ∧
    kpiAvg (avg_order_value true zeroDf) = KpiText.dash ∧
    kpiQty (total_qty true zeroDf) = KpiText.dash := by
  have h1 : total_revenue true zeroDf = 0 := by simp [total_revenue, sumOpt, zeroDf]
  have h2 : avg_order_value true zeroDf = some 0 := by
    simp [avg_order_value, meanOpt, zeroDf, List.filterMap_cons]
  have h3 : total_qty true zeroDf = 0 := by simp [total_qty, sumOpt, zeroDf]
  exact ⟨⟨h1, h2, h3, rfl⟩, (c10_zero_metrics_dash zeroDf).1 h1,
    (c10_zero_metrics_dash zeroDf).2.1 h2, (c10_zero_metrics_dash zeroDf).2.2 h3⟩

/-- C4: `resolveCol` returns the first candidate name present in the header
(`none` exactly when no candidate is present), and when no amount column
resolves, the startup guard halts the script. -/
theorem c4_column_resolution (cands header : List String) :
    (resolveCol cands header = none ↔ ∀ c ∈ cands, c ∉ header) ∧
    (∀ c, resolveCol cands header = some c →
      c ∈ cands ∧ c ∈ header ∧
      ∃ pre post, cands = pre ++ c :: post ∧ ∀ c' ∈ pre, c' ∉ header) ∧
    (∀ isEmpty : Bool, resolveCol possible_amount header = none →
      startupGuard header isEmpty = RunState.halted) := by
  refine ⟨?_, ?_, ?_⟩
  · rw [resolveCol, List.find?_eq_none]
    constructor
    · intro h c hc
      have := h c hc
      simpa [List.contains] using this
    · intro h c hc
      simpa [List.contains] using h c hc
  · intro c h
    rw [resolveCol, List.find?_eq_some] at h
    obtain ⟨hp, pre, post, heq, hpre⟩ := h
    refine ⟨?_, ?_, pre, post, heq, ?_⟩
    · rw [heq]
      simp
    · simpa [List.contains] using hp
    · intro c' hc'
      have := hpre c' hc'
      simpa [List.contains] using this
  · intro isEmpty h
    simp [startupGuard, h]

/-- Witness for C4: in the header [Order ID, amount, Qty] the amount role
resolves to the second candidate `amount` (the first candidate `Amount` is
absent), and a header with no amount candidate halts the script. -/
theorem c4_column_resolution_w :
    (resolveCol possible_amount ["Order ID", "amount", "Qty"] = some "amount" ∧
      "amount" ∈ possible_amount ∧ "amount" ∈ ["Order ID", "amount", "Qty"] ∧
      ∃ pre post, possible_amount = pre ++ "amount" :: post ∧
        ∀ c' ∈ pre, c' ∉ ["Order ID", "amount", "Qty"]) ∧
    (resolveCol possible_amount ["Date", "Category"] = none ∧
      startupGuard ["Date", "Category"] false = RunState.halted) := by
  refine ⟨⟨by decide,
    (c4_column_resolution possible_amount ["Order ID", "amount", "Qty"]).2.1 "amount"
      (by decide)⟩,
    by decide,
    (c4_column_resolution possible_amount ["Date", "Category"]).2.2 false (by decide)⟩

/-- Splitting a mapped sum along a Boolean predicate on the rows. -/
theorem map_sum_filter_split (g : Row → Rat) (p : Row → Bool) (rows : List Row) :
    ((rows.filter p).map g).sum + ((rows.filter (fun r => !p r)).map g).sum
      = (rows.map g).sum := by
  induction rows with
  | nil => simp
  | cons r t ih =>
    by_cases hp : p r = true
    · simp only [List.filter_cons, hp, Bool.not_true, if_true, if_false, List.map_cons,
        List.sum_cons, Bool.false_eq_true, reduceIte]
      rw [add_assoc, ih]
    · have hp' : p r = false := by
        cases h : p r
        · rfl
        · exact absurd h hp
      simp only [List.filter_cons, hp', Bool.not_false, if_true, if_false, List.map_cons,
        List.sum_cons, Bool.false_eq_true, reduceIte]
      rw [add_left_comm, ih]

/-- Grouping rows by a key and summing each group loses nothing when the key
list is duplicate-free and covers every row. -/
theorem groupsum_eq (g : Row → Rat) (proj : Row → Option String) :
    ∀ keys : List String, keys.Nodup →
      ∀ rows : List Row, (∀ r ∈ rows, ∃ k ∈ keys, proj r = some k) →
      (keys.map
        (fun k => ((rows.filter (fun r => decide (proj r = some k))).map g).sum)).sum
        = (rows.map g).sum := by
  intro keys
  induction keys with
  | nil =>
    intro _ rows hall
    have hempty : rows = [] := by
      cases rows with
      | nil => rfl
      | cons r t =>
        exfalso
        obtain ⟨k, hk, _⟩ := hall r (List.mem_cons_self r t)
        exact absurd hk (List.not_mem_nil k)
    simp [hempty]
  | cons k ks ih =>
    intro hnd rows hall
    have hknotin : k ∉ ks := (List.nodup_cons.mp hnd).1
    have hndks : ks.Nodup := (List.nodup_cons.mp hnd).2
    have hcong : ∀ k' ∈ ks,
        ((rows.filter (fun r => decide (proj r = some k'))).map g).sum
          = (((rows.filter (fun r => !(decide (proj r = some k)))).filter
              (fun r => decide (proj r = some k'))).map g).sum := by
      intro k' hk'
      have hkk : k' ≠ k := fun h => hknotin (h ▸ hk')
      rw [List.filter_filter]
      have : ∀ r ∈ rows,
          decide (proj r = some k')
            = (decide (proj r = some k') && !decide (proj r = some k)) := by
        intro r _
        by_cases h : proj r = some k'
        · simp [h, hkk]
        · simp [h]
      rw [List.filter_congr this]
    have hallB : ∀ r ∈ rows.filter (fun r => !(decide (proj r = some k))),
        ∃ k' ∈ ks, proj r = some k' := by
      intro r hr
      obtain ⟨hrmem, hrnk⟩ := List.mem_filter.mp hr
      obtain ⟨k0, hk0, hproj⟩ := hall r hrmem
      rcases List.mem_cons.mp hk0 with h0 | h0
      · exfalso
        rw [h0] at hproj
        simp [hproj] at hrnk
      · exact ⟨k0, h0, hproj⟩
    calc (((k :: ks)).map
          (fun k => ((rows.filter (fun r => decide (proj r = some k))).map g).sum)).sum
        = ((rows.filter (fun r => decide (proj r = some k))).map g).sum
            + (ks.map
              (fun k' => ((rows.filter (fun r => decide (proj r = some k'))).map g).sum)).sum := by
          simp
      _ = ((rows.filter (fun r => decide (proj r = some k))).map g).sum
            + (ks.map
              (fun k' => (((rows.filter (fun r => !(decide (proj r = some k)))).filter
                (fun r => decide (proj r = some k'))).map g).sum)).sum := by
          rw [List.map_congr_left hcong]
      _ = ((rows.filter (fun r => decide (proj r = some k))).map g).sum
            + ((rows.filter (fun r => !(decide (proj r = some k)))).map g).sum := by
          rw [ih hndks _ hallB]
      _ = (rows.map g).sum := map_sum_filter_split g _ rows

/-- C3 amended: when every filtered row has a non-missing category, the sum
of the per-category group revenues (before top-N truncation) equals the total
filtered revenue.  (The unconditional claim fails: pandas drops rows with a
missing group key from the groupby.) -/
theorem c3_category_partition (rows : List Row)
    (h : ∀ r ∈ rows, (r.category).isSome = true) :
    cat_rev_sum rows = sumOpt Row.amount rows := by
  have hcover : ∀ r ∈ rows, ∃ k ∈ groupKeys Row.category rows, Row.category r = some k := by
    intro r hr
    obtain ⟨c, hc⟩ := Option.isSome_iff_exists.mp (h r hr)
    exact ⟨c, List.mem_dedup.mpr (List.mem_filterMap.mpr ⟨r, hr, hc⟩), hc⟩
  have := groupsum_eq (fun r => (r.amount).getD 0) Row.category
    (groupKeys Row.category rows) (List.nodup_dedup _) rows hcover
  simpa [cat_rev_sum, cat_rev, List.map_map, Function.comp, groupRevenue, sumOpt] using this

/-- Witness for C3 at two rows with categories A and B and amounts 100
and 200. -/
theorem c3_category_partition_w :
    (∀ r ∈ catWitRows, (r.category).isSome = true) ∧
    cat_rev_sum catWitRows = sumOpt Row.amount catWitRows := by
  exact ⟨by decide, c3_category_partition catWitRows (by decide)⟩

/-- C3 as stated is false: a filtered row whose category cell is missing is
dropped by the groupby, so its revenue appears in the total but in no group;
here one such row with amount 100 gives group total 0 against revenue 100. -/
theorem c3_counterexample :
    cat_rev_sum (applyFilters noFilters ⟨missingCatRows, false, true, false, false⟩).rows ≠
      total_revenue true (applyFilters noFilters ⟨missingCatRows, false, true, false, false⟩) := by
  rw [applyFilters_noFilters_eq]
  simp [cat_rev_sum, cat_rev, groupKeys, missingCatRows, total_revenue, sumOpt]

/-- C9: every city-revenue entry reaching the scatter map or the fallback
table has revenue strictly greater than 0: the `Revenue > 0` restriction runs
before the top-150 truncation, the coordinate matching, and the fallback
`head(30)`. -/
theorem c9_city_positive_revenue (rows : List Row) (e : String × Rat)
    (h : e ∈ mapped_cities rows ∨ e ∈ fallback_table rows) : 0 < e.2 := by
  have hpos : ∀ x ∈ city_rev_top rows, (0:Rat) < x.2 := by
    intro x hx
    have h1 : x ∈ (city_rev_pos rows).mergeSort (fun a b => decide (b.2 ≤ a.2)) :=
      List.take_subset _ _ hx
    have h2 : x ∈ city_rev_pos rows := List.mem_mergeSort.mp h1
    have h3 := List.of_mem_filter h2
    simpa using h3
  rcases h with h | h
  · exact hpos e (List.mem_filter.mp h).1
  · exact hpos e (List.take_subset _ _ h)

/-- Witness for C9: a single order shipping to MUMBAI with amount 100 puts
(MUMBAI, 100) on the map, and its revenue is positive. -/
theorem c9_city_positive_revenue_w :
    ("MUMBAI", (100:Rat)) ∈ mapped_cities mumbaiRows ∧ (0:Rat) < 100 := by
  have hval : groupRevenue Row.city mumbaiRows "MUMBAI" = 100 := by
    simp [groupRevenue, sumOpt, mumbaiRows, List.filter_cons]
  have hkeys : groupKeys Row.city mumbaiRows = ["MUMBAI"] := by
    simp [groupKeys, mumbaiRows]
  have hg : city_rev_grouped mumbaiRows = [("MUMBAI", (100:Rat))] := by
    simp only [city_rev_grouped, hkeys, List.map_cons, List.map_nil, hval]
  have hpos : city_rev_pos mumbaiRows = [("MUMBAI", (100:Rat))] := by
    rw [city_rev_pos, hg]
    simp [List.filter_cons]
  have htop : city_rev_top mumbaiRows = [("MUMBAI", (100:Rat))] := by
    rw [city_rev_top, hpos]
    simp [List.mergeSort]
  have hlat : get_lat "MUMBAI" = some 19.0760 := rfl
  have hlon : get_lon "MUMBAI" = some 72.8777 := rfl
  have hm : ("MUMBAI", (100:Rat)) ∈ mapped_cities mumbaiRows := by
    rw [mapped_cities, htop]
    simp [List.filter_cons, hlat, hlon]
  exact ⟨hm, c9_city_positive_revenue mumbaiRows ("MUMBAI", (100:Rat)) (Or.inl hm)⟩

/-- An incomplete date-range selection leaves the frame unchanged. -/
theorem dateStage_none (df : RecordSet) : dateStage none df = df := by
  unfold dateStage
  split <;> rfl

/-- With every date missing the activation guard skips the date filter. -/
theorem dateStage_skip (dr : Option (Nat × Nat)) (df : RecordSet)
    (h : df.rows.any (fun r => r.date.isSome) = false) : dateStage dr df = df := by
  unfold dateStage
  simp [h]

/-- Without a `Date` column the date filter is skipped. -/
theorem dateStage_inactive (dr : Option (Nat × Nat)) (df : RecordSet)
    (h : df.hasDate = false) : dateStage dr df = df := by
  unfold dateStage
  simp [h]

/-- When the guard holds, the date stage is exactly the row filter. -/
theorem dateStage_active (s e : Nat) (df : RecordSet) (h1 : df.hasDate = true)
    (h2 : df.rows.any (fun r => r.date.isSome) = true) :
    dateStage (some (s, e)) df = { df with rows := df.rows.filter (datePass s e) } := by
  unfold dateStage
  simp [h1, h2]

/-- If every row already passes the date predicate, the date stage is the
identity. -/
theorem dateStage_fix (s e : Nat) (df : RecordSet)
    (h : ∀ r ∈ df.rows, datePass s e r = true) : dateStage (some (s, e)) df = df := by
  unfold dateStage
  split
  · show { df with rows := df.rows.filter (datePass s e) } = df
    rw [List.filter_eq_self.mpr h]
  · rfl

/-- The `'All'` sentinel leaves the frame unchanged. -/
theorem catStage_none (df : RecordSet) : catStage none df = df := by
  unfold catStage
  split <;> rfl

/-- Without a `Category` column the category filter is skipped. -/
theorem catStage_inactive (sel : Option (List String)) (df : RecordSet)
    (h : df.hasCategory = false) : catStage sel df = df := by
  unfold catStage
  simp [h]

/-- With the column present the category stage is exactly the row filter. -/
theorem catStage_active (cats : List String) (df : RecordSet)
    (h : df.hasCategory = true) :
    catStage (some cats) df
      = { df with rows := df.rows.filter (memPass Row.category cats) } := by
  unfold catStage
  simp [h]

/-- If every row already passes the category predicate, the category stage is
the identity. -/
theorem catStage_fix (cats : List String) (df : RecordSet)
    (h : ∀ r ∈ df.rows, memPass Row.category cats r = true) :
    catStage (some cats) df = df := by
  unfold catStage
  split
  · show { df with rows := df.rows.filter (memPass Row.category cats) } = df
    rw [List.filter_eq_self.mpr h]
  · rfl

/-- The `'All'` sentinel leaves the frame unchanged. -/
theorem statStage_none (df : RecordSet) : statStage none df = df := by
  unfold statStage
  split <;> rfl

/-- Without a `Status` column the status filter is skipped. -/
theorem statStage_inactive (sel : Option (List String)) (df : RecordSet)
    (h : df.hasStatus = false) : statStage sel df = df := by
  unfold statStage
  simp [h]

/-- With the column present the status stage is exactly the row filter. -/
theorem statStage_active (stats : List String) (df : RecordSet)
    (h : df.hasStatus = true) :
    statStage (some stats) df
      = { df with rows := df.rows.filter (memPass Row.rowStatus stats) } := by
  unfold statStage
  simp [h]

/-- If every row already passes the status predicate, the status stage is the
identity. -/
theorem statStage_fix (stats : List String) (df : RecordSet)
    (h : ∀ r ∈ df.rows, memPass Row.rowStatus stats r = true) :
    statStage (some stats) df = df := by
  unfold statStage
  split
  · show { df with rows := df.rows.filter (memPass Row.rowStatus stats) } = df
    rw [List.filter_eq_self.mpr h]
  · rfl

/-- The `'All'` sentinel leaves the frame unchanged. -/
theorem fulStage_none (df : RecordSet) : fulStage none df = df := by
  unfold fulStage
  split <;> rfl

/-- Without a `Fulfilment` column the fulfilment filter is skipped. -/
theorem fulStage_inactive (sel : Option (List String)) (df : RecordSet)
    (h : df.hasFulfilment = false) : fulStage sel df = df := by
  unfold fulStage
  simp [h]

/-- With the column present the fulfilment stage is exactly the row filter. -/
theorem fulStage_active (fuls : List String) (df : RecordSet)
    (h : df.hasFulfilment = true) :
    fulStage (some fuls) df
      = { df with rows := df.rows.filter (memPass Row.fulfilment fuls) } := by
  unfold fulStage
  simp [h]

/-- If every row already passes the fulfilment predicate, the fulfilment
stage is the identity. -/
theorem fulStage_fix (fuls : List String) (df : RecordSet)
    (h : ∀ r ∈ df.rows, memPass Row.fulfilment fuls r = true) :
    fulStage (some fuls) df = df := by
  unfold fulStage
  split
  · show { df with rows := df.rows.filter (memPass Row.fulfilment fuls) } = df
    rw [List.filter_eq_self.mpr h]
  · rfl

/-- The sidebar never changes the header flags. -/
theorem applyFilters_flags (fs : Filters) (df : RecordSet) :
    (applyFilters fs df).hasDate = df.hasDate ∧
    (applyFilters fs df).hasCategory = df.hasCategory ∧
    (applyFilters fs df).hasStatus = df.hasStatus ∧
    (applyFilters fs df).hasFulfilment = df.hasFulfilment := by
  have h1 := shape_flags (dateStage_shape fs.dateRange) df
  have h2 := shape_flags (catStage_shape fs.selCats) (dateStage fs.dateRange df)
  have h3 := shape_flags (statStage_shape fs.selStats)
    (catStage fs.selCats (dateStage fs.dateRange df))
  have h4 := shape_flags (fulStage_shape fs.selFul)
    (statStage fs.selStats (catStage fs.selCats (dateStage fs.dateRange df)))
  refine ⟨?_, ?_, ?_, ?_⟩ <;> simp only [applyFilters]
  · rw [h4.1, h3.1, h2.1, h1.1]
  · rw [h4.2.1, h3.2.1, h2.2.1, h1.2.1]
  · rw [h4.2.2.1, h3.2.2.1, h2.2.2.1, h1.2.2.1]
  · rw [h4.2.2.2, h3.2.2.2, h2.2.2.2, h1.2.2.2]

/-- C6: the filter stage is idempotent: applying the sidebar's four filters a
second time, with the same selections, to an already-filtered set returns it
unchanged.  (Every surviving row already passes each active predicate, and no
guard flips in a direction that could re-filter.) -/
theorem c6_filter_idem (fs : Filters) (df : RecordSet) :
    applyFilters fs (applyFilters fs df) = applyFilters fs df := by
  obtain ⟨dr, sc, ss, sf⟩ := fs
  set O := applyFilters ⟨dr, sc, ss, sf⟩ df with hO
  have hOsub : O.rows.Sublist df.rows := applyFilters_rows_sublist _ df
  have hflags := applyFilters_flags ⟨dr, sc, ss, sf⟩ df
  have stepA : dateStage dr O = O := by
    cases dr with
    | none => exact dateStage_none O
    | some se =>
      obtain ⟨s, e⟩ := se
      by_cases hD : df.hasDate = true
      · by_cases hA : df.rows.any (fun r => r.date.isSome) = true
        · have hact := dateStage_active s e df hD hA
          have hsub2 : O.rows.Sublist (dateStage (some (s, e)) df).rows := by
            rw [hO]
            simp only [applyFilters]
            exact (shape_rows_sublist (fulStage_shape sf) _).trans
              ((shape_rows_sublist (statStage_shape ss) _).trans
                (shape_rows_sublist (catStage_shape sc) _))
          have hpass : ∀ r ∈ O.rows, datePass s e r = true := by
            intro r hr
            have hr2 := hsub2.subset hr
            rw [hact] at hr2
            exact List.of_mem_filter hr2
          exact dateStage_fix s e O hpass
        · have hA' : df.rows.any (fun r => r.date.isSome) = false := by simpa using hA
          have hOA : O.rows.any (fun r => r.date.isSome) = false := by
            rw [List.any_eq_false]
            intro r hr
            exact List.any_eq_false.mp hA' r (hOsub.subset hr)
          exact dateStage_skip (some (s, e)) O hOA
      · have hD' : df.hasDate = false := by simpa using hD
        exact dateStage_inactive (some (s, e)) O (hflags.1.trans hD')
  have stepB : catStage sc O = O := by
    cases sc with
    | none => exact catStage_none O
    | some cats =>
      by_cases hC : df.hasCategory = true
      · have hX1C : (dateStage dr df).hasCategory = true := by
          rw [(shape_flags (dateStage_shape dr) df).2.1]
          exact hC
        have hact := catStage_active cats (dateStage dr df) hX1C
        have hsub2 : O.rows.Sublist (catStage (some cats) (dateStage dr df)).rows := by
          rw [hO]
          simp only [applyFilters]
          exact (shape_rows_sublist (fulStage_shape sf) _).trans
            (shape_rows_sublist (statStage_shape ss) _)
        have hpass : ∀ r ∈ O.rows, memPass Row.category cats r = true := by
          intro r hr
          have hr2 := hsub2.subset hr
          rw [hact] at hr2
          exact List.of_mem_filter hr2
        exact catStage_fix cats O hpass
      · have hC' : df.hasCategory = false := by simpa using hC
        exact catStage_inactive (some cats) O (hflags.2.1.trans hC')
  have stepC : statStage ss O = O := by
    cases ss with
    | none => exact statStage_none O
    | some stats =>
      by_cases hS : df.hasStatus = true
      · have hX2S : (catStage sc (dateStage dr df)).hasStatus = true := by
          rw [(shape_flags (catStage_shape sc) _).2.2.1,
            (shape_flags (dateStage_shape dr) df).2.2.1]
          exact hS
        have hact := statStage_active stats (catStage sc (dateStage dr df)) hX2S
        have hsub2 : O.rows.Sublist
            (statStage (some stats) (catStage sc (dateStage dr df))).rows := by
          rw [hO]
          simp only [applyFilters]
          exact shape_rows_sublist (fulStage_shape sf) _
        have hpass : ∀ r ∈ O.rows, memPass Row.rowStatus stats r = true := by
          intro r hr
          have hr2 := hsub2.subset hr
          rw [hact] at hr2
          exact List.of_mem_filter hr2
        exact statStage_fix stats O hpass
      · have hS' : df.hasStatus = false := by simpa using hS
        exact statStage_inactive (some stats) O (hflags.2.2.1.trans hS')
  have stepD : fulStage sf O = O := by
    cases sf with
    | none => exact fulStage_none O
    | some fuls =>
      by_cases hF : df.hasFulfilment = true
      · have hX3F : (statStage ss (catStage sc (dateStage dr df))).hasFulfilment = true := by
          rw [(shape_flags (statStage_shape ss) _).2.2.2,
            (shape_flags (catStage_shape sc) _).2.2.2,
            (shape_flags (dateStage_shape dr) df).2.2.2]
          exact hF
        have hact := fulStage_active fuls (statStage ss (catStage sc (dateStage dr df))) hX3F
        have hpass : ∀ r ∈ O.rows, memPass Row.fulfilment fuls r = true := by
          intro r hr
          rw [hO] at hr
          simp only [applyFilters] at hr
          rw [hact] at hr
          exact List.of_mem_filter hr
        exact fulStage_fix fuls O hpass
      · have hF' : df.hasFulfilment = false := by simpa using hF
        exact fulStage_inactive (some fuls) O (hflags.2.2.2.trans hF')
  calc applyFilters ⟨dr, sc, ss, sf⟩ O
      = fulStage sf (statStage ss (catStage sc (dateStage dr O))) := rfl
    _ = fulStage sf (statStage ss (catStage sc O)) := by rw [stepA]
    _ = fulStage sf (statStage ss O) := by rw [stepB]
    _ = fulStage sf O := by rw [stepC]
    _ = O := stepD

/-- C7 as stated is false: on `orderDf` with date range [5, 5] and category
selection A, running the date filter first and the category filter second
empties the set, while the reverse order keeps the undated category-A row —
the category filter removes every dated row, which deactivates the date
filter's `isna().all()` guard. -/
theorem c7_counterexample :
    runStages orderFilters [FilterKind.catF, FilterKind.dateF] orderDf ≠
      runStages orderFilters [FilterKind.dateF, FilterKind.catF] orderDf := by
  decide

/-- Two stages that, on a frame and on all row-sublist variants of it,
uniformly either skip or filter by a fixed predicate, commute. -/
theorem unifStep_comm (S T : RecordSet → RecordSet) (X : RecordSet)
    (hS : (∀ l, l.Sublist X.rows → S { X with rows := l } = { X with rows := l }) ∨
      (∃ p, ∀ l, l.Sublist X.rows → S { X with rows := l } = { X with rows := l.filter p }))
    (hT : (∀ l, l.Sublist X.rows → T { X with rows := l } = { X with rows := l }) ∨
      (∃ q, ∀ l, l.Sublist X.rows → T { X with rows := l } = { X with rows := l.filter q })) :
    S (T X) = T (S X) := by
  rcases hS with hS | ⟨p, hS⟩ <;> rcases hT with hT | ⟨q, hT⟩
  · have t1 : T X = X := hT X.rows (List.Sublist.refl _)
    have s1 : S X = X := hS X.rows (List.Sublist.refl _)
    rw [t1, s1, t1]
  · have t1 : T X = { X with rows := X.rows.filter q } := hT X.rows (List.Sublist.refl _)
    have s1 : S X = X := hS X.rows (List.Sublist.refl _)
    have s2 : S { X with rows := X.rows.filter q } = { X with rows := X.rows.filter q } :=
      hS _ (List.filter_sublist _)
    rw [t1, s2, s1, t1]
  · have s1 : S X = { X with rows := X.rows.filter p } := hS X.rows (List.Sublist.refl _)
    have t1 : T X = X := hT X.rows (List.Sublist.refl _)
    have t2 : T { X with rows := X.rows.filter p } = { X with rows := X.rows.filter p } :=
      hT _ (List.filter_sublist _)
    rw [t1, s1, t2]
  · have s1 : S X = { X with rows := X.rows.filter p } := hS X.rows (List.Sublist.refl _)
    have t1 : T X = { X with rows := X.rows.filter q } := hT X.rows (List.Sublist.refl _)
    have s2 : S { X with rows := X.rows.filter q }
        = { X with rows := (X.rows.filter q).filter p } := hS _ (List.filter_sublist _)
    have t2 : T { X with rows := X.rows.filter p }
        = { X with rows := (X.rows.filter p).filter q } := hT _ (List.filter_sublist _)
    rw [t1, s2, s1, t2]
    have hpq : (X.rows.filter q).filter p = (X.rows.filter p).filter q := by
      rw [List.filter_filter, List.filter_filter]
      exact List.filter_congr (fun x _ => Bool.and_comm (p x) (q x))
    rw [hpq]

/-- The category stage is a uniform conditional filter on row variants. -/
theorem catStage_branch (sel : Option (List String)) (X : RecordSet) :
    (∀ l, l.Sublist X.rows →
      catStage sel { X with rows := l } = { X with rows := l }) ∨
    (∃ p, ∀ l, l.Sublist X.rows →
      catStage sel { X with rows := l } = { X with rows := l.filter p }) := by
  cases sel with
  | none => exact Or.inl (fun l _ => catStage_none _)
  | some cats =>
    by_cases hC : X.hasCategory = true
    · exact Or.inr ⟨memPass Row.category cats,
        fun l _ => catStage_active cats { X with rows := l } hC⟩
    · have hC' : X.hasCategory = false := by simpa using hC
      exact Or.inl (fun l _ => catStage_inactive _ _ hC')

/-- The status stage is a uniform conditional filter on row variants. -/
theorem statStage_branch (sel : Option (List String)) (X : RecordSet) :
    (∀ l, l.Sublist X.rows →
      statStage sel { X with rows := l } = { X with rows := l }) ∨
    (∃ p, ∀ l, l.Sublist X.rows →
      statStage sel { X with rows := l } = { X with rows := l.filter p }) := by
  cases sel with
  | none => exact Or.inl (fun l _ => statStage_none _)
  | some stats =>
    by_cases hS : X.hasStatus = true
    · exact Or.inr ⟨memPass Row.rowStatus stats,
        fun l _ => statStage_active stats { X with rows := l } hS⟩
    · have hS' : X.hasStatus = false := by simpa using hS
      exact Or.inl (fun l _ => statStage_inactive _ _ hS')

/-- The fulfilment stage is a uniform conditional filter on row variants. -/
theorem fulStage_branch (sel : Option (List String)) (X : RecordSet) :
    (∀ l, l.Sublist X.rows →
      fulStage sel { X with rows := l } = { X with rows := l }) ∨
    (∃ p, ∀ l, l.Sublist X.rows →
      fulStage sel { X with rows := l } = { X with rows := l.filter p }) := by
  cases sel with
  | none => exact Or.inl (fun l _ => fulStage_none _)
  | some fuls =>
    by_cases hF : X.hasFulfilment = true
    · exact Or.inr ⟨memPass Row.fulfilment fuls,
        fun l _ => fulStage_active fuls { X with rows := l } hF⟩
    · have hF' : X.hasFulfilment = false := by simpa using hF
      exact Or.inl (fun l _ => fulStage_inactive _ _ hF')

/-- When every row of the frame carries a date, the date stage too is a
uniform conditional filter on row-sublist variants: its activation guard
cannot flip on them except at the empty list, where skipping and filtering
agree. -/
theorem dateStage_branch (dr : Option (Nat × Nat)) (X : RecordSet)
    (hdates : ∀ r ∈ X.rows, (r.date).isSome = true) :
    (∀ l, l.Sublist X.rows →
      dateStage dr { X with rows := l } = { X with rows := l }) ∨
    (∃ p, ∀ l, l.Sublist X.rows →
      dateStage dr { X with rows := l } = { X with rows := l.filter p }) := by
  cases dr with
  | none => exact Or.inl (fun l _ => dateStage_none _)
  | some se =>
    obtain ⟨s, e⟩ := se
    by_cases hD : X.hasDate = true
    · refine Or.inr ⟨datePass s e, fun l hsub => ?_⟩
      by_cases hA : l.any (fun r => r.date.isSome) = true
      · exact dateStage_active s e { X with rows := l } hD hA
      · have hA' : l.any (fun r => r.date.isSome) = false := by simpa using hA
        have hempty : l = [] := by
          cases hl : l with
          | nil => rfl
          | cons r t =>
            exfalso
            have hmem : r ∈ l := by
              rw [hl]
              exact List.mem_cons_self r t
            have h1 := hdates r (hsub.subset hmem)
            have h2 := List.any_eq_false.mp hA' r hmem
            exact h2 h1
        subst hempty
        exact dateStage_skip (some (s, e)) { X with rows := ([] : List Row) } (by simp)
    · have hD' : X.hasDate = false := by simpa using hD
      exact Or.inl (fun l _ => dateStage_inactive _ _ hD')

/-- One stage keeps the all-rows-dated property. -/
theorem runStage_preserves_dates (fs : Filters) (k : FilterKind) (df : RecordSet)
    (h : ∀ r ∈ df.rows, (r.date).isSome = true) :
    ∀ r ∈ (runStage fs k df).rows, (r.date).isSome = true := by
  intro r hr
  have hsub : (runStage fs k df).rows.Sublist df.rows := by
    cases k with
    | dateF => exact shape_rows_sublist (dateStage_shape fs.dateRange) df
    | catF => exact shape_rows_sublist (catStage_shape fs.selCats) df
    | statF => exact shape_rows_sublist (statStage_shape fs.selStats) df
    | fulF => exact shape_rows_sublist (fulStage_shape fs.selFul) df
  exact h r (hsub.subset hr)

/-- A whole stage sequence keeps the all-rows-dated property. -/
theorem runStages_preserves_dates (fs : Filters) (order : List FilterKind) (df : RecordSet)
    (h : ∀ r ∈ df.rows, (r.date).isSome = true) :
    ∀ r ∈ (runStages fs order df).rows, (r.date).isSome = true := by
  induction order with
  | nil => exact h
  | cons k t ih => exact runStage_preserves_dates fs k _ ih

/-- On an all-rows-dated frame any two stages commute. -/
theorem runStage_comm (fs : Filters) (j k : FilterKind) (X : RecordSet)
    (h : ∀ r ∈ X.rows, (r.date).isSome = true) :
    runStage fs j (runStage fs k X) = runStage fs k (runStage fs j X) := by
  have branch : ∀ i : FilterKind,
      (∀ l, l.Sublist X.rows →
        runStage fs i { X with rows := l } = { X with rows := l }) ∨
      (∃ p, ∀ l, l.Sublist X.rows →
        runStage fs i { X with rows := l } = { X with rows := l.filter p }) := by
    intro i
    cases i with
    | dateF => exact dateStage_branch fs.dateRange X h
    | catF => exact catStage_branch fs.selCats X
    | statF => exact statStage_branch fs.selStats X
    | fulF => exact fulStage_branch fs.selFul X
  exact unifStep_comm (runStage fs j) (runStage fs k) X (branch j) (branch k)

/-- Permuting an all-rows-dated stage sequence does not change the result. -/
theorem runStages_perm_eq (fs : Filters) (df : RecordSet)
    (hdates : ∀ r ∈ df.rows, (r.date).isSome = true)
    {order order' : List FilterKind} (hperm : order.Perm order') :
    runStages fs order df = runStages fs order' df := by
  induction hperm with
  | nil => rfl
  | cons x h ih => exact congrArg (runStage fs x) ih
  | swap x y l =>
    exact runStage_comm fs y x (runStages fs l df)
      (runStages_preserves_dates fs l df hdates)
  | trans h1 h2 ih1 ih2 => exact ih1.trans ih2

/-- C7 amended: provided every row of the record set carries a date (so the
date filter's activation guard cannot flip), applying the date-range,
category, status and fulfilment filters in any order yields the sidebar's
own result.  Without that proviso the order can matter (see the
counterexample): a membership filter can strip the set of all its dates and
thereby deactivate the date filter. -/
theorem c7_order_independent (fs : Filters) (df : RecordSet) (order : List FilterKind)
    (hdates : ∀ r ∈ df.rows, (r.date).isSome = true)
    (hperm : order.Perm
      [FilterKind.fulF, FilterKind.statF, FilterKind.catF, FilterKind.dateF]) :
    runStages fs order df = applyFilters fs df :=
  runStages_perm_eq fs df hdates hperm

/-- Witness for C7 at a concrete all-dated record set: the reversed order
gives the sidebar's result. -/
theorem c7_order_independent_w :
    (∀ r ∈ datedDf.rows, (r.date).isSome = true) ∧
    ([FilterKind.dateF, FilterKind.catF, FilterKind.statF, FilterKind.fulF].Perm
      [FilterKind.fulF, FilterKind.statF, FilterKind.catF, FilterKind.dateF]) ∧
    runStages datedFilters
        [FilterKind.dateF, FilterKind.catF, FilterKind.statF, FilterKind.fulF] datedDf
      = applyFilters datedFilters datedDf :=
  ⟨by decide, by decide,
    c7_order_independent datedFilters datedDf
      [FilterKind.dateF, FilterKind.catF, FilterKind.statF, FilterKind.fulF]
      (by decide) (by decide)⟩
